import Mathlib

/-!
Shallow embedding of the session/orchestration core of `app.py` (the
Interactive Book Analyzer): the `SessionState` held in `st.session_state`,
the upload-processing block and the question-answering block of `main()`,
and the `BookAnalyzer` methods `read_pdf`, `analyze_book`, `answer_question`
together with the helpers `initialize_session_state` and
`add_to_chat_history`.

Modelling choices:
- The external generative model (`self.model.generate_content`) is an
  oracle `gen : String → Except String String`: `.ok text` is a normal
  response, `.error msg` is a raised exception carrying `str(e)`.
- PDF parsing (`PdfReader`) is an oracle producing either the list of
  per-page extracted texts or a raised exception message; `read_pdf`
  itself (the page loop and error handling) is embedded faithfully.
- UTF-8 decoding of a plain-text upload is an oracle
  `Except String String` (decoded text, or a raised exception).
- A Streamlit `UploadedFile` is identified by an opaque `Nat` identity
  token; `uploaded_file != st.session_state.current_book` compares
  identities.
- Python truthiness of a `str`-or-`None` variable (`if content:`,
  `if st.session_state.book_content:`, `if question:`) is: not `None`
  and not the empty string.
- Timestamps (`datetime.now()`) are `Nat` readings of a clock supplied
  at each event.
- Messages shown with `st.error` / `st.success` / `st.info` are
  collected as `UIMessage` values.
-/

/-- A Q&A pair as appended by `add_to_chat_history`:
`{'timestamp': datetime.now(), 'question': question, 'answer': answer}`. -/
structure ChatExchange where
  timestamp : Nat
  question : String
  answer : String
deriving DecidableEq, Repr

/-- The four `st.session_state` fields used by `main()`. -/
structure SessionState where
  book_content : Option String
  book_analysis : Option String
  chat_history : List ChatExchange
  current_book : Option Nat
deriving DecidableEq, Repr

/-- `initialize_session_state`: every field starts as `None` / `[]`. -/
def init_session_state : SessionState :=
  { book_content := none
    book_analysis := none
    chat_history := []
    current_book := none }

/-- A message surfaced to the user via `st.error` / `st.success` / `st.info`. -/
inductive UIMessage where
  | errorMsg (text : String)
  | successMsg (text : String)
  | infoMsg (text : String)
deriving DecidableEq, Repr

/-- Result dictionary returned by `BookAnalyzer.analyze_book`:
`{'success': True, 'analysis': …}` or `{'success': False, 'error': …}`. -/
inductive AnalysisResult where
  | ok (analysis : String)
  | err (error : String)
deriving DecidableEq, Repr

/-- The literal text of the `analyze_book` prompt template before the
`{content}` placeholder. -/
def analyze_prompt_pre : String :=
  "\n            Analyze this book content and provide the following in a well-formatted way:\n\n            1. Brief Summary (2-3 sentences)\n            2. 5 Interesting Questions Readers Might Ask (numbered list)\n\n            Keep the analysis concise and focused on the most important aspects.\n\n            Book content: "

/-- The literal text of the `analyze_book` prompt template after the
`{content}` placeholder. -/
def analyze_prompt_post : String := "\n            "

/-- The `analyze_book` prompt: `prompt.format(content=content[:5000])`.
Python `content[:5000]` is the first 5000 code points, i.e. `String.take`. -/
def analyze_book_prompt (content : String) : String :=
  analyze_prompt_pre ++ String.take content 5000 ++ analyze_prompt_post

/-- `BookAnalyzer.analyze_book`: calls the model on the formatted prompt;
a raised exception is caught and returned as the failure dictionary. -/
def analyze_book (gen : String → Except String String) (content : String) :
    AnalysisResult :=
  match gen (analyze_book_prompt content) with
  | Except.ok t => AnalysisResult.ok t
  | Except.error e => AnalysisResult.err e

/-- The literal text of the `answer_question` prompt template before the
`{question}` placeholder. -/
def answer_prompt_pre : String :=
  "\n            Based on the following book content, answer this question: "

/-- The literal text of the `answer_question` prompt template between the
`{question}` and `{content}` placeholders. -/
def answer_prompt_mid : String := "\n\n            Book content: "

/-- The literal text of the `answer_question` prompt template after the
`{content}` placeholder. -/
def answer_prompt_post : String :=
  "\n\n            Provide a clear, detailed answer using specific information from the book.\n            If the answer cannot be found in the content, clearly state that.\n            "

/-- The `answer_question` prompt:
`prompt.format(question=question, content=content[:5000])`. -/
def answer_question_prompt (question content : String) : String :=
  answer_prompt_pre ++ question ++ answer_prompt_mid ++
    String.take content 5000 ++ answer_prompt_post

/-- `BookAnalyzer.answer_question`: returns the model response text, or
on a raised exception the inline string
`f"Error generating answer: \x7bstr(e)\x7d"`. -/
def answer_question (gen : String → Except String String)
    (question content : String) : String :=
  match gen (answer_question_prompt question content) with
  | Except.ok t => t
  | Except.error e => "Error generating answer: " ++ e

/-- `BookAnalyzer.read_pdf`: on a parsed PDF, concatenates
`page.extract_text() + "\n"` over the pages in order (so zero pages yield
`""`); on a raised exception shows `st.error` and returns `None`. -/
def read_pdf (pages : Except String (List String)) :
    Option String × List UIMessage :=
  match pages with
  | Except.ok ps =>
      (some (ps.foldl (fun text p => text ++ p ++ "\n") ""), [])
  | Except.error e =>
      (none, [UIMessage.errorMsg ("Error reading PDF: " ++ e)])

/-- Declared type of an upload, restricted by the uploader to pdf / txt. -/
inductive FileType where
  | pdf
  | txt
deriving DecidableEq, Repr

/-- One upload event: the file's identity token, its declared type, the
oracle outcomes of PDF parsing and of UTF-8 decoding, and the model
oracle in effect for the `analyze_book` call. -/
structure UploadEvent where
  fileId : Nat
  ftype : FileType
  pdfPages : Except String (List String)
  txtDecode : Except String String
  gen : String → Except String String

/-- The extraction step of the upload block: `read_pdf` for PDFs,
`uploaded_file.read().decode("utf-8")` with its `except` clause for text
files. -/
def extract_content (e : UploadEvent) : Option String × List UIMessage :=
  match e.ftype with
  | FileType.pdf => read_pdf e.pdfPages
  | FileType.txt =>
      match e.txtDecode with
      | Except.ok t => (some t, [])
      | Except.error _ =>
          (none, [UIMessage.errorMsg "Error reading the file. Please try again."])

/-- The upload block of `main()` (lines 133-154): guarded by
`uploaded_file != st.session_state.current_book`; extraction; `if content:`
(Python truthiness, so `None` and `""` both skip); `book_content` is
assigned before `analyze_book` runs; on success `book_analysis`,
`current_book` are set and `chat_history` is reset; on failure only
`st.error` is shown. -/
def upload_step (st : SessionState) (e : UploadEvent) :
    SessionState × List UIMessage :=
  if some e.fileId = st.current_book then (st, [])
  else
    match extract_content e with
    | (some c, msgs) =>
        if c = "" then (st, msgs)
        else
          let st1 := { st with book_content := some c }
          match analyze_book e.gen c with
          | AnalysisResult.ok a =>
              ({ st1 with
                  book_analysis := some a
                  current_book := some e.fileId
                  chat_history := [] },
                msgs ++ [UIMessage.successMsg "Book analyzed successfully!"])
          | AnalysisResult.err er =>
              (st1, msgs ++ [UIMessage.errorMsg ("Error analyzing book: " ++ er)])
    | (none, msgs) => (st, msgs)

/-- The question block of `main()` (lines 172-181): the chat input is only
rendered when `st.session_state.book_content` is truthy; an empty
submission (`if question:`) does nothing; otherwise `answer_question` is
called and `add_to_chat_history` appends the exchange stamped with the
current clock reading. -/
def ask_transition (gen : String → Except String String)
    (st : SessionState) (question : String) (now : Nat) : SessionState :=
  match st.book_content with
  | none => st
  | some c =>
      if c = "" then st
      else if question = "" then st
      else
        { st with
            chat_history := st.chat_history ++
              [{ timestamp := now, question := question,
                 answer := answer_question gen question c }] }

/-- A user event of one Streamlit rerun that can touch `SessionState`. -/
inductive Event where
  | upload (e : UploadEvent)
  | ask (question : String) (now : Nat) (gen : String → Except String String)

/-- One event's effect on the session state. -/
def step (st : SessionState) (ev : Event) : SessionState :=
  match ev with
  | Event.upload e => (upload_step st e).1
  | Event.ask q now gen => ask_transition gen st q now

/-- A whole session: the events folded over the freshly initialized state. -/
def run (evs : List Event) : SessionState :=
  evs.foldl step init_session_state

/-- The first `n` characters of a string, stated from the spec's words as
a list-prefix of the string's character data. -/
def first_chars (n : Nat) (s : String) : String :=
  String.mk (s.data.take n)

/-! ### Helper lemmas about the extraction step -/

/-- A failed extraction shows exactly one error message. -/
lemma extract_none_err_msg (e : UploadEvent) (h : (extract_content e).1 = none) :
    ∃ m, (extract_content e).2 = [UIMessage.errorMsg m] := by
  rcases e with ⟨fid, ft, pp, td, g⟩
  cases ft with
  | pdf =>
      cases pp with
      | ok ps => simp [extract_content, read_pdf] at h
      | error er => exact ⟨"Error reading PDF: " ++ er, rfl⟩
  | txt =>
      cases td with
      | ok t => simp [extract_content] at h
      | error er => exact ⟨"Error reading the file. Please try again.", rfl⟩

/-- A successful extraction shows no message. -/
lemma extract_some_no_msgs (e : UploadEvent) (c : String)
    (h : (extract_content e).1 = some c) : (extract_content e).2 = [] := by
  rcases e with ⟨fid, ft, pp, td, g⟩
  cases ft with
  | pdf =>
      cases pp with
      | ok ps => rfl
      | error er => simp [extract_content, read_pdf] at h
  | txt =>
      cases td with
      | ok t => rfl
      | error er => simp [extract_content] at h

/-! ### Claim theorems -/

/-- C4: an upload whose text extraction fails (malformed PDF or non-UTF-8
plain text) leaves every field of `SessionState` unchanged and surfaces an
error message to the user. -/
theorem extraction_fail_state_unchanged (st : SessionState) (e : UploadEvent)
    (htrig : some e.fileId ≠ st.current_book)
    (hfail : (extract_content e).1 = none) :
    (upload_step st e).1 = st ∧
    ∃ m, UIMessage.errorMsg m ∈ (upload_step st e).2 := by
  obtain ⟨m, hm⟩ := extract_none_err_msg e hfail
  rcases hx : extract_content e with ⟨fst, snd⟩
  rw [hx] at hfail hm
  simp only at hfail hm
  subst hfail hm
  constructor
  · simp [upload_step, htrig, hx]
  · exact ⟨m, by simp [upload_step, htrig, hx]⟩

/-- C4 witness: a text upload whose UTF-8 decoding raises, processed on a
fresh session. -/
theorem extraction_fail_state_unchanged_witness :
    (upload_step init_session_state
        { fileId := 1, ftype := FileType.txt, pdfPages := Except.ok [],
          txtDecode := Except.error "bad byte", gen := fun _ => Except.ok "S" }).1 =
      init_session_state ∧
    ∃ m, UIMessage.errorMsg m ∈
      (upload_step init_session_state
        { fileId := 1, ftype := FileType.txt, pdfPages := Except.ok [],
          txtDecode := Except.error "bad byte", gen := fun _ => Except.ok "S" }).2 :=
  extraction_fail_state_unchanged init_session_state
    { fileId := 1, ftype := FileType.txt, pdfPages := Except.ok [],
      txtDecode := Except.error "bad byte", gen := fun _ => Except.ok "S" }
    (by decide) (by rfl)

/-- C5: the text spliced into the model prompt by the summarization path
and by the answering path is in both cases exactly the first 5000
characters of the document content, and is the whole content when the
content has at most 5000 characters. -/
theorem prompt_truncation_first_5000 (q content : String) :
    analyze_book_prompt content =
      analyze_prompt_pre ++ first_chars 5000 content ++ analyze_prompt_post ∧
    answer_question_prompt q content =
      answer_prompt_pre ++ q ++ answer_prompt_mid ++
        first_chars 5000 content ++ answer_prompt_post ∧
    (content.length ≤ 5000 → first_chars 5000 content = content) := by
  refine ⟨?_, ?_, ?_⟩
  · simp only [analyze_book_prompt, first_chars, String.take_eq]
  · simp only [answer_question_prompt, first_chars, String.take_eq]
  · intro h
    have h' : content.data.length ≤ 5000 := h
    simp only [first_chars, List.take_of_length_le h']

/-- C5 witness: a short content string is embedded whole. -/
theorem prompt_truncation_first_5000_witness :
    ("The quick brown fox." : String).length ≤ 5000 ∧
    first_chars 5000 "The quick brown fox." = "The quick brown fox." :=
  ⟨by decide,
    (prompt_truncation_first_5000 "Q" "The quick brown fox.").2.2 (by decide)⟩

/-- C10 counterexample: a well-formed PDF with zero pages extracts the
empty string (a successful extraction), yet the upload block leaves the
fresh session unchanged — the document is not installed, summarization
output is not stored, and no message is surfaced. -/
theorem empty_extraction_dropped_cex :
    (extract_content
        { fileId := 1, ftype := FileType.pdf, pdfPages := Except.ok [],
          txtDecode := Except.ok "", gen := fun _ => Except.ok "SUMMARY" }).1 =
      some "" ∧
    upload_step init_session_state
        { fileId := 1, ftype := FileType.pdf, pdfPages := Except.ok [],
          txtDecode := Except.ok "", gen := fun _ => Except.ok "SUMMARY" } =
      (init_session_state, []) := by
  exact ⟨rfl, rfl⟩

/-- C10 amended: an extraction that succeeds with the empty string is
dropped by the Python truthiness test `if content:` exactly like a failed
extraction, except that no error is surfaced: the state is unchanged and
no message is shown, and summarization is never invoked. -/
theorem empty_extraction_noop (st : SessionState) (e : UploadEvent)
    (h : (extract_content e).1 = some "") :
    upload_step st e = (st, []) := by
  have hmsgs := extract_some_no_msgs e "" h
  rcases hx : extract_content e with ⟨fst, snd⟩
  rw [hx] at h hmsgs
  simp only at h hmsgs
  subst h hmsgs
  by_cases hg : some e.fileId = st.current_book
  · simp [upload_step, hg]
  · simp [upload_step, hg, hx]

/-- C10-amended witness: the zero-page PDF upload on a fresh session. -/
theorem empty_extraction_noop_witness :
    upload_step init_session_state
        { fileId := 3, ftype := FileType.pdf, pdfPages := Except.ok [],
          txtDecode := Except.ok "x", gen := fun _ => Except.ok "SUMMARY" } =
      (init_session_state, []) :=
  empty_extraction_noop init_session_state
    { fileId := 3, ftype := FileType.pdf, pdfPages := Except.ok [],
      txtDecode := Except.ok "x", gen := fun _ => Except.ok "SUMMARY" }
    (by rfl)

/-! ### Concrete fixtures -/

/-- A populated pre-call session: an old book, an old summary, one stored
exchange, identity token 1. -/
def populatedState : SessionState :=
  { book_content := some "OLD"
    book_analysis := some "OLDSUM"
    chat_history := [{ timestamp := 0, question := "old q", answer := "old a" }]
    current_book := some 1 }

/-- Upload of a new text file (identity 2) whose decoding yields "NEW" and
whose summarization call raises "boom". -/
def newTxtUploadSummErr : UploadEvent :=
  { fileId := 2, ftype := FileType.txt, pdfPages := Except.ok [],
    txtDecode := Except.ok "NEW", gen := fun _ => Except.error "boom" }

/-- Upload of the same text file (identity 2, same decoded content) on a
call where the summarization succeeds with "NEWSUM". -/
def newTxtUploadOk : UploadEvent :=
  { fileId := 2, ftype := FileType.txt, pdfPages := Except.ok [],
    txtDecode := Except.ok "NEW", gen := fun _ => Except.ok "NEWSUM" }

/-! ### Branch analysis of the upload block -/

/-- Case split of `upload_step`: the state is kept unchanged, or fully
replaced on summarization success, or — summarization failure after a
truthy extraction — only `book_content` is replaced. -/
lemma upload_step_cases (st : SessionState) (e : UploadEvent) :
    (upload_step st e).1 = st ∨
    (∃ c a, c ≠ "" ∧ analyze_book e.gen c = AnalysisResult.ok a ∧
      some e.fileId ≠ st.current_book ∧ (extract_content e).1 = some c ∧
      (upload_step st e).1 =
        { book_content := some c, book_analysis := some a,
          chat_history := [], current_book := some e.fileId }) ∨
    (∃ c er, c ≠ "" ∧ analyze_book e.gen c = AnalysisResult.err er ∧
      some e.fileId ≠ st.current_book ∧ (extract_content e).1 = some c ∧
      (upload_step st e).1 = { st with book_content := some c }) := by
  by_cases hg : some e.fileId = st.current_book
  · left; simp [upload_step, hg]
  · rcases hx : extract_content e with ⟨fst, snd⟩
    cases fst with
    | none => left; simp [upload_step, hg, hx]
    | some c =>
        by_cases hc : c = ""
        · left; simp [upload_step, hg, hx, hc]
        · cases ha : analyze_book e.gen c with
          | ok a =>
              right; left
              exact ⟨c, a, hc, ha, hg, by simp [hx],
                by simp [upload_step, hg, hx, hc, ha]⟩
          | err er =>
              right; right
              exact ⟨c, er, hc, ha, hg, by simp [hx],
                by simp [upload_step, hg, hx, hc, ha]⟩

/-- C1 counterexample: on a populated session, an upload whose extraction
succeeds ("NEW") but whose summarization raises leaves `SessionState`
half-updated — `book_content` holds the new document's text while
`current_book` and `chat_history` (and `book_analysis`) keep the old
book's values, refuting atomic replace-or-keep. -/
theorem upload_partial_update_cex :
    (upload_step populatedState newTxtUploadSummErr).1.book_content ≠
      populatedState.book_content ∧
    (upload_step populatedState newTxtUploadSummErr).1.book_content = some "NEW" ∧
    (upload_step populatedState newTxtUploadSummErr).1.current_book =
      populatedState.current_book ∧
    (upload_step populatedState newTxtUploadSummErr).1.chat_history =
      populatedState.chat_history := by decide

/-- C1 amended: each upload either keeps the whole state, or replaces all
four fields together (summarization success), or — when extraction
succeeds and summarization fails — replaces `book_content` alone, keeping
`book_analysis`, `current_book` and `chat_history` at their pre-call
values. -/
theorem upload_replace_or_keep_amended (st : SessionState) (e : UploadEvent) :
    (upload_step st e).1 = st ∨
    (∃ c a, c ≠ "" ∧ (upload_step st e).1 =
        { book_content := some c, book_analysis := some a,
          chat_history := [], current_book := some e.fileId }) ∨
    (∃ c er, c ≠ "" ∧ analyze_book e.gen c = AnalysisResult.err er ∧
        (upload_step st e).1 = { st with book_content := some c }) := by
  rcases upload_step_cases st e with h | ⟨c, a, hc, ha, _, _, h⟩ | ⟨c, er, hc, ha, _, _, h⟩
  · exact Or.inl h
  · exact Or.inr (Or.inl ⟨c, a, hc, h⟩)
  · exact Or.inr (Or.inr ⟨c, er, hc, ha, h⟩)

/-- C2 counterexample: extraction succeeds but summarization fails, yet the
new identity token is not installed, the transcript is not cleared, and
the failure is not recorded in `book_analysis` (the old summary stays). -/
theorem summarize_fail_install_cex :
    (upload_step populatedState newTxtUploadSummErr).1.current_book ≠
      some newTxtUploadSummErr.fileId ∧
    (upload_step populatedState newTxtUploadSummErr).1.chat_history ≠ [] ∧
    (upload_step populatedState newTxtUploadSummErr).1.book_analysis =
      some "OLDSUM" := by decide

/-- C2 amended: when extraction succeeds with truthy text and summarization
fails, only `book_content` is replaced; `book_analysis`, `current_book`
and `chat_history` keep their pre-call values; the failure is surfaced as
an error message instead of being stored; and the user can still ask
questions, answered from the new document's text. -/
theorem summarize_fail_partial_install (st : SessionState) (e : UploadEvent)
    (gen2 : String → Except String String) (q : String) (now : Nat) (c er : String)
    (htrig : some e.fileId ≠ st.current_book)
    (hc : (extract_content e).1 = some c) (hne : c ≠ "")
    (herr : analyze_book e.gen c = AnalysisResult.err er) (hq : q ≠ "") :
    (upload_step st e).1 = { st with book_content := some c } ∧
    UIMessage.errorMsg ("Error analyzing book: " ++ er) ∈ (upload_step st e).2 ∧
    (ask_transition gen2 (upload_step st e).1 q now).chat_history =
      st.chat_history ++
        [{ timestamp := now, question := q,
           answer := answer_question gen2 q c }] := by
  have hmsgs := extract_some_no_msgs e c hc
  rcases hx : extract_content e with ⟨fst, snd⟩
  rw [hx] at hc hmsgs
  simp only at hc hmsgs
  subst hc hmsgs
  have h1 : (upload_step st e).1 = { st with book_content := some c } := by
    simp [upload_step, htrig, hx, hne, herr]
  refine ⟨h1, ?_, ?_⟩
  · simp [upload_step, htrig, hx, hne, herr]
  · rw [h1]; simp [ask_transition, hne, hq]

/-- C2-amended witness: the populated session, the summarization-failing
upload, then a question answered from the new text. -/
theorem summarize_fail_partial_install_witness :
    (upload_step populatedState newTxtUploadSummErr).1 =
      { populatedState with book_content := some "NEW" } ∧
    UIMessage.errorMsg ("Error analyzing book: " ++ "boom") ∈
      (upload_step populatedState newTxtUploadSummErr).2 ∧
    (ask_transition (fun _ => Except.ok "ANS")
        (upload_step populatedState newTxtUploadSummErr).1 "Q" 9).chat_history =
      populatedState.chat_history ++
        [{ timestamp := 9, question := "Q",
           answer := answer_question (fun _ => Except.ok "ANS") "Q" "NEW" }] :=
  summarize_fail_partial_install populatedState newTxtUploadSummErr
    (fun _ => Except.ok "ANS") "Q" 9 "NEW" "boom"
    (by decide) (by rfl) (by decide) (by rfl) (by decide)

/-- C3: whenever an upload replaces the current document identity, the
transcript is cleared to empty, whatever it held before; an upload that
does not replace the identity leaves the transcript untouched; and the ask
operation only ever appends, preserving all stored exchanges as a prefix. -/
theorem transcript_cleared_on_replace (st : SessionState) (e : UploadEvent)
    (gen : String → Except String String) (q : String) (now : Nat) :
    ((upload_step st e).1.current_book ≠ st.current_book →
      (upload_step st e).1.chat_history = []) ∧
    ((upload_step st e).1.current_book = st.current_book →
      (upload_step st e).1.chat_history = st.chat_history) ∧
    (∃ tail, (ask_transition gen st q now).chat_history =
      st.chat_history ++ tail) := by
  refine ⟨?_, ?_, ?_⟩
  · intro hne
    rcases upload_step_cases st e with h | ⟨c, a, _, _, _, _, h⟩ |
        ⟨c, er, _, _, _, _, h⟩
    · exact absurd (by rw [h]) hne
    · rw [h]
    · exact absurd (by rw [h]) hne
  · intro heq
    rcases upload_step_cases st e with h | ⟨c, a, _, _, hg, _, h⟩ |
        ⟨c, er, _, _, _, _, h⟩
    · rw [h]
    · rw [h] at heq; exact absurd heq hg
    · rw [h]
  · cases hb : st.book_content with
    | none => exact ⟨[], by simp [ask_transition, hb]⟩
    | some c =>
        by_cases hc : c = ""
        · exact ⟨[], by simp [ask_transition, hb, hc]⟩
        · by_cases hq : q = ""
          · exact ⟨[], by simp [ask_transition, hb, hc, hq]⟩
          · exact ⟨[ChatExchange.mk now q (answer_question gen q c)],
              by simp [ask_transition, hb, hc, hq]⟩

/-- C3 witness: a fully successful upload on the populated session clears
the one-exchange transcript, and a concrete ask appends to it. -/
theorem transcript_cleared_on_replace_witness :
    (upload_step populatedState newTxtUploadOk).1.chat_history = [] ∧
    ∃ tail, (ask_transition (fun _ => Except.ok "ANS")
        populatedState "Q" 7).chat_history =
      populatedState.chat_history ++ tail :=
  ⟨(transcript_cleared_on_replace populatedState newTxtUploadOk
      (fun _ => Except.ok "ANS") "Q" 7).1 (by decide),
   (transcript_cleared_on_replace populatedState newTxtUploadOk
      (fun _ => Except.ok "ANS") "Q" 7).2.2⟩

/-- C6 counterexample: the same file object (identity 2, same decoded
content) submitted twice in a row is not a no-op the second time: the
first call's summarization raised, so the identity token was never stored,
and the second call re-processes the file — when its summarization
succeeds, `book_analysis`, `current_book` and `chat_history` all change. -/
theorem same_file_reprocess_cex :
    step (step init_session_state (Event.upload newTxtUploadSummErr))
        (Event.upload newTxtUploadOk) ≠
      step init_session_state (Event.upload newTxtUploadSummErr) := by decide

/-- C6 amended: after an upload that completes successfully (the identity
token is installed), submitting any file with the same identity is a
no-op: the guard compares identities, so the whole state is unchanged and
nothing is shown. -/
theorem same_file_noop_after_success (st : SessionState) (e e2 : UploadEvent)
    (hsucc : (upload_step st e).1.current_book = some e.fileId)
    (hsame : e2.fileId = e.fileId) :
    upload_step (upload_step st e).1 e2 = ((upload_step st e).1, []) := by
  have hg : some e2.fileId = (upload_step st e).1.current_book := by
    rw [hsame, hsucc]
  simp [upload_step, hg]

/-- C6-amended witness: a successful upload of identity 2, then a second
event with the same identity (even with a different model outcome). -/
theorem same_file_noop_after_success_witness :
    upload_step (upload_step init_session_state newTxtUploadOk).1
        newTxtUploadSummErr =
      ((upload_step init_session_state newTxtUploadOk).1, []) :=
  same_file_noop_after_success init_session_state newTxtUploadOk
    newTxtUploadSummErr (by decide) (by decide)

/-! ### The NoDocument state -/

/-- An event that never extracts truthy text leaves an empty session empty. -/
lemma step_preserves_empty (st : SessionState) (ev : Event)
    (hb : st.book_content = none) (hh : st.chat_history = [])
    (hev : ∀ e, ev = Event.upload e →
      ∀ c, (extract_content e).1 = some c → c = "") :
    (step st ev).book_content = none ∧ (step st ev).chat_history = [] := by
  cases ev with
  | upload e =>
      have he := hev e rfl
      by_cases hg : some e.fileId = st.current_book
      · simp [step, upload_step, hg, hb, hh]
      · rcases hx : extract_content e with ⟨fst, snd⟩
        cases fst with
        | none => simp [step, upload_step, hg, hx, hb, hh]
        | some c =>
            have hc : c = "" := he c (by simp [hx])
            subst hc
            simp [step, upload_step, hg, hx, hb, hh]
  | ask q now gen => simp [step, ask_transition, hb, hh]

/-- The empty-session invariant is preserved along any run of such events. -/
lemma run_inv (evs : List Event) :
    ∀ st : SessionState, st.book_content = none → st.chat_history = [] →
    (∀ e, Event.upload e ∈ evs → ∀ c, (extract_content e).1 = some c → c = "") →
    (evs.foldl step st).book_content = none ∧
    (evs.foldl step st).chat_history = [] := by
  induction evs with
  | nil => intro st hb hh _; exact ⟨hb, hh⟩
  | cons ev rest ih =>
      intro st hb hh hev
      have hstep := step_preserves_empty st ev hb hh
        (fun e he => hev e (by rw [he]; exact List.mem_cons_self _ _))
      exact ih (step st ev) hstep.1 hstep.2
        (fun e he => hev e (List.mem_cons_of_mem _ he))

/-- C7: the ask operation is a guaranteed no-op whenever no document
content is loaded, and from the initial session any event sequence in
which no upload extracts truthy text leaves the transcript empty and the
session still without a document. -/
theorem no_document_no_chat (evs : List Event)
    (h : ∀ e, Event.upload e ∈ evs →
      ∀ c, (extract_content e).1 = some c → c = "") :
    (run evs).chat_history = [] ∧ (run evs).book_content = none ∧
    ∀ (gen : String → Except String String) (st : SessionState) (q : String)
      (now : Nat), st.book_content = none → ask_transition gen st q now = st := by
  have hr := run_inv evs init_session_state rfl rfl h
  exact ⟨hr.2, hr.1, fun gen st q now hb => by simp [ask_transition, hb]⟩

/-- C7 witness: a failing text upload followed by an ask attempt leaves
the transcript empty. -/
theorem no_document_no_chat_witness :
    (run [Event.upload
        { fileId := 1, ftype := FileType.txt, pdfPages := Except.ok [],
          txtDecode := Except.error "bad", gen := fun _ => Except.ok "S" },
      Event.ask "Q" 3 (fun _ => Except.ok "A")]).chat_history = [] ∧
    (run [Event.upload
        { fileId := 1, ftype := FileType.txt, pdfPages := Except.ok [],
          txtDecode := Except.error "bad", gen := fun _ => Except.ok "S" },
      Event.ask "Q" 3 (fun _ => Except.ok "A")]).book_content = none :=
  ⟨(no_document_no_chat _ (by
      intro e he c hc
      simp only [List.mem_cons, List.not_mem_nil, or_false] at he
      rcases he with he | he
      · injection he with h1
        subst h1
        simp [extract_content] at hc
      · simp at he)).1,
   (no_document_no_chat _ (by
      intro e he c hc
      simp only [List.mem_cons, List.not_mem_nil, or_false] at he
      rcases he with he | he
      · injection he with h1
        subst h1
        simp [extract_content] at hc
      · simp at he)).2.1⟩

/-- C8: a successful ask appends exactly one exchange, carrying the
literal question and the supplied clock reading; every stored exchange is
preserved in place and the new timestamp is at least each stored one. -/
theorem ask_appends_one_exchange (gen : String → Except String String)
    (st : SessionState) (q : String) (now : Nat) (c : String)
    (hc : st.book_content = some c) (hcne : c ≠ "") (hq : q ≠ "")
    (hmono : ∀ ex ∈ st.chat_history, ex.timestamp ≤ now) :
    ∃ ex : ChatExchange,
      (ask_transition gen st q now).chat_history = st.chat_history ++ [ex] ∧
      ex.question = q ∧ ex.timestamp = now ∧
      ∀ ex0 ∈ st.chat_history, ex0.timestamp ≤ ex.timestamp := by
  refine ⟨ChatExchange.mk now q (answer_question gen q c), ?_, rfl, rfl, ?_⟩
  · simp [ask_transition, hc, hcne, hq]
  · exact hmono

/-- C8 witness: asking "Q" at time 5 on the populated session. -/
theorem ask_appends_one_exchange_witness :
    ∃ ex : ChatExchange,
      (ask_transition (fun _ => Except.ok "ANS")
          populatedState "Q" 5).chat_history =
        populatedState.chat_history ++ [ex] ∧
      ex.question = "Q" ∧ ex.timestamp = 5 ∧
      ∀ ex0 ∈ populatedState.chat_history, ex0.timestamp ≤ ex.timestamp :=
  ask_appends_one_exchange (fun _ => Except.ok "ANS") populatedState "Q" 5 "OLD"
    (by rfl) (by decide) (by decide) (by decide)

/-- C9: when the model call raises, `answer_question` returns the inline
error string instead of propagating the exception, that string starts with
the error marker, and the ask still appends the exchange — the transcript
is never left unmodified by such an ask. -/
theorem answer_error_still_appends (gen : String → Except String String)
    (st : SessionState) (q c er : String) (now : Nat)
    (hc : st.book_content = some c) (hcne : c ≠ "") (hq : q ≠ "")
    (herr : gen (answer_question_prompt q c) = Except.error er) :
    answer_question gen q c = "Error generating answer: " ++ er ∧
    ("Error generating answer: ").data <+: (answer_question gen q c).data ∧
    (ask_transition gen st q now).chat_history =
      st.chat_history ++
        [ChatExchange.mk now q ("Error generating answer: " ++ er)] ∧
    (ask_transition gen st q now).chat_history ≠ st.chat_history := by
  have h1 : answer_question gen q c = "Error generating answer: " ++ er := by
    simp [answer_question, herr]
  have h3 : (ask_transition gen st q now).chat_history =
      st.chat_history ++
        [ChatExchange.mk now q ("Error generating answer: " ++ er)] := by
    simp [ask_transition, hc, hcne, hq, h1]
  refine ⟨h1, ?_, h3, ?_⟩
  · rw [h1, String.data_append]
    exact List.prefix_append _ _
  · rw [h3]
    intro hcontra
    have hl := congrArg List.length hcontra
    simp at hl

/-- C9 witness: a raising model call on the populated session. -/
theorem answer_error_still_appends_witness :
    answer_question (fun _ => Except.error "boom") "Q" "OLD" =
      "Error generating answer: " ++ "boom" ∧
    ("Error generating answer: ").data <+:
      (answer_question (fun _ => Except.error "boom") "Q" "OLD").data ∧
    (ask_transition (fun _ => Except.error "boom")
        populatedState "Q" 5).chat_history =
      populatedState.chat_history ++
        [ChatExchange.mk 5 "Q" ("Error generating answer: " ++ "boom")] ∧
    (ask_transition (fun _ => Except.error "boom")
        populatedState "Q" 5).chat_history ≠ populatedState.chat_history :=
  answer_error_still_appends (fun _ => Except.error "boom")
    populatedState "Q" "OLD" "boom" 5 (by rfl) (by decide) (by decide) (by rfl)
